import Mathlib

/-!
Shallow embedding of `src/moonraker/components/ai_detection.py` (the
`AiDetection` component of the MINGDA3D moonraker fork) and proofs about
its prediction-request orchestration path: the Predictor
(`_request_prediction`), the Predict Handler (`_handle_predict`), the
Upload Handler (`_handle_image_upload`) and the Snapshot Handler
(`_handle_snapshot_request`).

External effects (the outbound HTTP POST, the filesystem write, the
webcam capture) are passed in as explicit parameters; each handler
returns its observable trace (files written, outbound request issued,
log lines) together with its result or raised error.
-/

namespace AiDetection

/-- Configuration read from the `[ai]` section (`AIConfig` in
`confighelper.py`): remote service root, request timeout, snapshot
directory. -/
structure AIConfig where
  base_url : String
  upload_timeout : Nat
  snapshot_path : String
deriving DecidableEq

/-- Host information returned by `self.server.get_host_info()`; the code
only reads the `address` entry. -/
structure HostInfo where
  address : String
deriving DecidableEq

/-- Modelled from the spec: `self.server.error(message, status)` (the
`ServerError` class of `moonraker/utils`, not included under `src/`)
constructs an exception carrying a message and an HTTP status code; its
string form (`str(e)`) is the message. -/
structure ServerError where
  message : String
  status : Nat
deriving DecidableEq

/-- String form of a server error, as used by `str(e)` in the handlers. -/
def errStr (e : ServerError) : String := e.message

/-- Opaque parsed JSON value, as returned by `await resp.json()` and
passed through unchanged. -/
inductive JsonValue where
  | null : JsonValue
  | boolean : Bool → JsonValue
  | num : Int → JsonValue
  | str : String → JsonValue
  | arr : List JsonValue → JsonValue
  | obj : List (String × JsonValue) → JsonValue

/-- The JSON body of the outbound prediction POST, lines 88-92 of the
source: `{"image_url": ..., "task_id": ..., "callback_url": ...}`. -/
structure PredictData where
  image_url : String
  task_id : String
  callback_url : String
deriving DecidableEq

/-- One outbound POST as issued by `session.post(...)`: target URL,
JSON body and timeout. -/
structure PredictRequest where
  url : String
  body : PredictData
  timeout : Nat
deriving DecidableEq

/-- Outcome of the outbound POST at the transport level: a completed
HTTP response (with its status, its text body as read by `resp.text()`
and its parsed JSON body as read by `resp.json()`), an
`asyncio.TimeoutError`, or an `aiohttp.ClientError` carrying the
underlying error text. -/
inductive HttpOutcome where
  | response : Nat → String → JsonValue → HttpOutcome
  | timeout : HttpOutcome
  | connError : String → HttpOutcome

/-- The `{code, message, data}` dictionaries returned by
`_handle_predict` and `_handle_image_upload`. -/
structure ApiResponse where
  code : Nat
  message : String
  data : JsonValue

/-- Index of the last occurrence of a character in a list, mirroring
Python `str.rfind` (restricted to found/not-found). -/
def rfind (l : List Char) (c : Char) : Option Nat :=
  match l with
  | [] => none
  | x :: xs =>
    match rfind xs c with
    | some i => some (i + 1)
    | none => if x = c then some 0 else none

/-- Model of `os.path.splitext` for POSIX paths (CPython `genericpath._splitext`
with `sep = '/'`, no `altsep`, `extsep = '.'`): splits at the last dot
of the final path component, unless every character of that component
before the last dot is itself a dot (leading dots carry no extension). -/
def splitext (p : String) : String × String :=
  let l := p.data
  let fnameIdx : Nat :=
    match rfind l '/' with
    | some s => s + 1
    | none => 0
  match rfind l '.' with
  | none => (p, "")
  | some dotIdx =>
    if fnameIdx ≤ dotIdx ∧ ((l.drop fnameIdx).take (dotIdx - fnameIdx)).any (· ≠ '.') then
      (⟨l.take dotIdx⟩, ⟨l.drop dotIdx⟩)
    else
      (p, "")

/-- Python `str.lower` (character-wise lowercasing; the filenames in
scope are ASCII, where it agrees with `Char.toLower`). -/
def lower (s : String) : String := ⟨s.data.map Char.toLower⟩

/-- Python `str.startswith` on strings. -/
def startswith (s pre : String) : Bool := pre.data.isPrefixOf s.data

/-- Python `str.endswith` on strings. -/
def endswith (s post : String) : Bool := post.data.isSuffixOf s.data

/-- Model of `os.path.join` for POSIX paths restricted to two components. -/
def path_join (a b : String) : String :=
  if startswith b "/" then b
  else if a = "" ∨ endswith a "/" then a ++ b
  else a ++ "/" ++ b

/-- Model of `os.path.basename` for POSIX paths: everything after the last slash. -/
def basename (p : String) : String :=
  match rfind p.data '/' with
  | some s => ⟨p.data.drop (s + 1)⟩
  | none => p

/-- Lines 77-99 of the source: the outbound request built by
`_request_prediction` from the configuration, the server host info, the
image path and the task id.  The image URL joins the advertised address
with the static snapshot route and the image file's base name; the
callback URL is always derived from the host info, never from the
caller. -/
def build_predict_request (cfg : AIConfig) (host : HostInfo)
    (image_path task_id : String) : PredictRequest :=
  let image_name := basename image_path
  let image_url :=
    "http://" ++ host.address ++ "/server/files/ai_snapshots/" ++ image_name
  let callback_url := "http://" ++ host.address ++ "/api/v1/ai/callback"
  { url := cfg.base_url ++ "/predict"
    body := { image_url := image_url, task_id := task_id,
              callback_url := callback_url }
    timeout := cfg.upload_timeout }

/-- The predictor `_request_prediction` (lines 69-129): issues the single outbound
POST and classifies the outcome.  Returns the request it issued together
with the parsed JSON body on HTTP 200, or the raised server error:
status ≠ 200 → error with the remote status and a message embedding the
remote body text; `asyncio.TimeoutError` → 504 "AI service request
timeout"; `aiohttp.ClientError` → 503 with the underlying error text. -/
def request_prediction (cfg : AIConfig) (host : HostInfo)
    (image_path task_id : String) (net : PredictRequest → HttpOutcome) :
    PredictRequest × Except ServerError JsonValue :=
  let req := build_predict_request cfg host image_path task_id
  match net req with
  | .response status text json =>
    if status ≠ 200 then
      (req, .error ⟨"AI service returned error: " ++ text, status⟩)
    else
      (req, .ok json)
  | .timeout =>
    (req, .error ⟨"AI service request timeout", 504⟩)
  | .connError e =>
    (req, .error ⟨"Failed to connect to AI service: " ++ e, 503⟩)

/-- Value bound to a key in a parsed JSON object (string-valued fields
only, which is all this component reads), mirroring `dict` lookup. -/
def lookupField (body : List (String × String)) (f : String) : Option String :=
  (body.find? (fun kv => kv.1 = f)).map (·.2)

/-- The fields `_handle_predict` requires, in source order (line 143). -/
def required_fields : List String := ["image_url", "task_id", "callback_url"]

/-- The predict handler `_handle_predict` (lines 131-164): validates that `image_url`,
`task_id` and `callback_url` are present (first missing field, in order,
raises 400), then delegates to `request_prediction` with the supplied
`image_url` and `task_id` only.  A success wraps the predictor's result
as `{code: 200, message: "success", data: result}`; any exception from
the predictor is re-raised as a 500 error whose message is `str(e)`.
The first component records the outbound request, if one was issued. -/
def handle_predict (cfg : AIConfig) (host : HostInfo)
    (body : List (String × String)) (net : PredictRequest → HttpOutcome) :
    Option PredictRequest × Except ServerError ApiResponse :=
  match required_fields.find? (fun f => (lookupField body f).isNone) with
  | some f => (none, .error ⟨"Missing required field: " ++ f, 400⟩)
  | none =>
    let image_url := (lookupField body "image_url").getD ""
    let task_id := (lookupField body "task_id").getD ""
    let (req, res) := request_prediction cfg host image_url task_id net
    match res with
    | .ok result => (some req, .ok ⟨200, "success", result⟩)
    | .error e => (some req, .error ⟨errStr e, 500⟩)

/-- A multipart file part as accessed by the upload handler:
`file.filename` and `file.body`. -/
structure HTTPFile where
  filename : String
  body : List UInt8
deriving DecidableEq

/-- An upload request: `web_request.files` maps part names to file
objects (`none` models a falsy file object, rejected by `not file`),
and `web_request` string arguments hold `task_id`. -/
structure UploadRequest where
  files : List (String × Option HTTPFile)
  args : List (String × String)

/-- Lookup of a part in `web_request.files`. -/
def lookupFile (files : List (String × Option HTTPFile)) (k : String) :
    Option (Option HTTPFile) :=
  (files.find? (fun kv => kv.1 = k)).map (·.2)

/-- Modelled from the spec: `WebRequest.get_str` (defined in
`moonraker/common.py`, not included under `src/`) returns the named
request argument as a string and raises a 400-class server error when
the argument is absent. -/
def get_str (args : List (String × String)) (key : String) :
    Except ServerError String :=
  match lookupField args key with
  | some v => .ok v
  | none => .error ⟨"Missing request argument: " ++ key, 400⟩

/-- The extension check at line 230: the lowercased filename must end
with `.jpg`, `.jpeg` or `.png`. -/
def allowed_ext (lowered : String) : Bool :=
  endswith lowered ".jpg" || endswith lowered ".jpeg" || endswith lowered ".png"

/-- The upload handler `_handle_image_upload` (lines 203-258): validates the request
(file part present; file truthy and named; `task_id` present and
non-empty; allowed extension), then writes the file body once to
`snapshot_path/<task_id>_<timestamp><ext>` where `ext` is the extension
of the lowercased filename, and returns
`{code: 200, message: "success", data: null}`.  `timestamp` stands for
`int(time.time())`; `write_ok`/`io_msg` model whether the `open`/`write`
raises and with what text.  The first component lists the files written. -/
def handle_image_upload (cfg : AIConfig) (req : UploadRequest)
    (timestamp : Nat) (write_ok : Bool) (io_msg : String) :
    List (String × List UInt8) × Except ServerError ApiResponse :=
  match lookupFile req.files "file" with
  | none => ([], .error ⟨"No file uploaded", 400⟩)
  | some fileObj =>
    match fileObj with
    | none => ([], .error ⟨"Empty file", 400⟩)
    | some file =>
      if file.filename = "" then
        ([], .error ⟨"Empty file", 400⟩)
      else
        match get_str req.args "task_id" with
        | .error e => ([], .error e)
        | .ok task_id =>
          if task_id = "" then
            ([], .error ⟨"task_id is required", 400⟩)
          else
            let filename := lower file.filename
            if ¬ allowed_ext filename then
              ([], .error ⟨"Invalid file type. Only jpg/jpeg/png allowed", 400⟩)
            else
              let save_filename :=
                task_id ++ "_" ++ toString timestamp ++ (splitext filename).2
              let save_path := path_join cfg.snapshot_path save_filename
              if write_ok then
                ([(save_path, file.body)], .ok ⟨200, "success", .null⟩)
              else
                ([], .error ⟨"Failed to save image: " ++ io_msg, 500⟩)

/-- Behaviour of the capture collaborator inside the snapshot handler's
`try` block: the `webcam` lookup or `take_snapshot()` raises, or
`take_snapshot()` returns `None`, or it returns image bytes. -/
inductive Capture where
  | raises : String → Capture
  | noImage : Capture
  | image : List UInt8 → Capture

/-- Observable events of one snapshot-handler invocation. -/
inductive SnapshotEvent where
  | logError : String → SnapshotEvent
  | fileWrite : String → List UInt8 → SnapshotEvent
  | outboundPost : PredictRequest → SnapshotEvent
deriving DecidableEq

/-- The snapshot handler `_handle_snapshot_request` (lines 166-201): generates
`snapshot_<timestamp>` as task id, captures an image (a `None` capture
logs "Failed to take snapshot" and returns), persists it to
`snapshot_path/<task_id>.jpg`, and calls the predictor.  Any exception
inside the `try` block — capture lookup/capture failure, the file write,
or a predictor error — is logged and re-raised as
`server.error("Failed to process snapshot: " + str(e), 500)`.  Returns
the event trace and the raised error, `none` meaning a normal return
(the function never produces a value). -/
def handle_snapshot_request (cfg : AIConfig) (host : HostInfo)
    (timestamp : Nat) (capture : Capture) (write_ok : Bool) (io_msg : String)
    (net : PredictRequest → HttpOutcome) :
    List SnapshotEvent × Option ServerError :=
  let task_id := "snapshot_" ++ toString timestamp
  match capture with
  | .raises msg =>
    ([.logError "Error processing snapshot request"],
     some ⟨"Failed to process snapshot: " ++ msg, 500⟩)
  | .noImage =>
    ([.logError "Failed to take snapshot"], none)
  | .image bytes =>
    let save_filename := task_id ++ ".jpg"
    let save_path := path_join cfg.snapshot_path save_filename
    if write_ok then
      let (req, res) := request_prediction cfg host save_path task_id net
      match res with
      | .ok _ => ([.fileWrite save_path bytes, .outboundPost req], none)
      | .error e =>
        ([.fileWrite save_path bytes, .outboundPost req,
          .logError "Error processing snapshot request"],
         some ⟨"Failed to process snapshot: " ++ errStr e, 500⟩)
    else
      ([.logError "Error processing snapshot request"],
       some ⟨"Failed to process snapshot: " ++ io_msg, 500⟩)

/-! Example fixtures used for counterexamples and witnesses. -/

/-- A concrete configuration for concrete evaluations. -/
def cfgEx : AIConfig := ⟨"http://ai.example", 30, "/snaps"⟩

/-- A concrete host info for concrete evaluations. -/
def hostEx : HostInfo := ⟨"printer.local"⟩

/-! Helper lemmas shared between claims. -/

/-- The predictor always issues exactly the request built by
`build_predict_request`, whatever the transport outcome. -/
theorem request_prediction_fst (cfg : AIConfig) (host : HostInfo)
    (image_path task_id : String) (net : PredictRequest → HttpOutcome) :
    (request_prediction cfg host image_path task_id net).1 =
      build_predict_request cfg host image_path task_id := by
  cases h : net (build_predict_request cfg host image_path task_id) with
  | response status text json =>
    by_cases h2 : status = 200 <;> simp [request_prediction, h, h2]
  | timeout => simp [request_prediction, h]
  | connError e => simp [request_prediction, h]

/-- When all three required fields are present, `_handle_predict`'s
field scan finds no missing field. -/
theorem find_missing_none (body : List (String × String))
    (h1 : (lookupField body "image_url").isSome)
    (h2 : (lookupField body "task_id").isSome)
    (h3 : (lookupField body "callback_url").isSome) :
    required_fields.find? (fun f => (lookupField body f).isNone) = none := by
  obtain ⟨v1, hv1⟩ := Option.isSome_iff_exists.mp h1
  obtain ⟨v2, hv2⟩ := Option.isSome_iff_exists.mp h2
  obtain ⟨v3, hv3⟩ := Option.isSome_iff_exists.mp h3
  simp [required_fields, List.find?, hv1, hv2, hv3]

/-! Claim theorems. -/

/-- C7: when the capture collaborator returns `None`, the snapshot
handler logs "Failed to take snapshot" and returns normally: its trace
holds no file write and no outbound request, and no error is raised. -/
theorem snapshot_nil_capture (cfg : AIConfig) (host : HostInfo)
    (timestamp : Nat) (write_ok : Bool) (io_msg : String)
    (net : PredictRequest → HttpOutcome) :
    handle_snapshot_request cfg host timestamp .noImage write_ok io_msg net =
      ([.logError "Failed to take snapshot"], none) := rfl

/-- C8 counterexample: a snapshot invocation whose persistence write
fails raises a 500-class server error to its caller — the handler does
not swallow the failure, refuting "never propagates an exception". -/
theorem snapshot_propagates_cex :
    (handle_snapshot_request cfgEx hostEx 7 (.image [1]) false "disk full"
        (fun _ => .timeout)).2 =
      some ⟨"Failed to process snapshot: disk full", 500⟩ ∧
    (handle_snapshot_request cfgEx hostEx 7 (.image [1]) false "disk full"
        (fun _ => .timeout)).2 ≠ none :=
  ⟨rfl, fun h => Option.noConfusion h⟩

/-- C8 (amended): snapshot-trigger failures are logged, and only the
nil-capture case is swallowed; every other failure (capture lookup or
capture exception, persistence I/O, predictor error) is re-raised as a
500-class error whose message is "Failed to process snapshot: "
followed by the original message.  The handler never produces a value:
it either returns nothing or raises. -/
theorem snapshot_error_policy (cfg : AIConfig) (host : HostInfo)
    (timestamp : Nat) (capture : Capture) (write_ok : Bool) (io_msg : String)
    (net : PredictRequest → HttpOutcome) :
    (∀ e, (handle_snapshot_request cfg host timestamp capture write_ok io_msg net).2 =
        some e →
      e.status = 500 ∧ ∃ m, e.message = "Failed to process snapshot: " ++ m) ∧
    ((handle_snapshot_request cfg host timestamp .noImage write_ok io_msg net).2 =
      none) ∧
    (∀ msg, (handle_snapshot_request cfg host timestamp (.raises msg) write_ok io_msg
        net).2 =
      some ⟨"Failed to process snapshot: " ++ msg, 500⟩) ∧
    (∀ bytes, write_ok = false →
      (handle_snapshot_request cfg host timestamp (.image bytes) write_ok io_msg
          net).2 =
        some ⟨"Failed to process snapshot: " ++ io_msg, 500⟩) ∧
    (∀ bytes e, write_ok = true →
      (request_prediction cfg host
          (path_join cfg.snapshot_path ("snapshot_" ++ toString timestamp ++ ".jpg"))
          ("snapshot_" ++ toString timestamp) net).2 = .error e →
      (handle_snapshot_request cfg host timestamp (.image bytes) write_ok io_msg
          net).2 =
        some ⟨"Failed to process snapshot: " ++ errStr e, 500⟩) := by
  refine ⟨?_, rfl, fun msg => rfl, fun bytes hw => by subst hw; rfl, ?_⟩
  · intro e he
    cases capture with
    | raises msg =>
      simp only [handle_snapshot_request] at he
      exact ⟨by simp [← Option.some.injEq _ _ ▸ he, ← he], ⟨msg, by
        have := Option.some.inj he
        rw [← this]⟩⟩
    | noImage => simp [handle_snapshot_request] at he
    | image bytes =>
      simp only [handle_snapshot_request] at he
      by_cases hw : write_ok
      · rw [if_pos hw] at he
        rcases hres : (request_prediction cfg host
            (path_join cfg.snapshot_path
              ("snapshot_" ++ toString timestamp ++ ".jpg"))
            ("snapshot_" ++ toString timestamp) net) with ⟨req, res⟩
        rw [hres] at he
        cases res with
        | ok v => simp at he
        | error err =>
          simp only at he
          have := Option.some.inj he
          rw [← this]
          exact ⟨rfl, ⟨errStr err, rfl⟩⟩
      · rw [if_neg hw] at he
        have := Option.some.inj he
        rw [← this]
        exact ⟨rfl, ⟨io_msg, rfl⟩⟩
  · intro bytes e hw he
    subst hw
    simp only [handle_snapshot_request]
    rcases hres : (request_prediction cfg host
        (path_join cfg.snapshot_path
          ("snapshot_" ++ toString timestamp ++ ".jpg"))
        ("snapshot_" ++ toString timestamp) net) with ⟨req, res⟩
    rw [hres] at he
    simp only at he
    subst he
    simp

/-- Witness for the amended C8 theorem at a concrete capture
exception. -/
theorem snapshot_error_policy_witness :
    (⟨"Failed to process snapshot: boom", 500⟩ : ServerError).status = 500 ∧
    ∃ m, (⟨"Failed to process snapshot: boom", 500⟩ : ServerError).message =
      "Failed to process snapshot: " ++ m :=
  (snapshot_error_policy cfgEx hostEx 3 (.raises "boom") true "x"
    (fun _ => .timeout)).1 _ rfl

/-- C1 counterexample: the code tests `resp.status != 200`, not the 2xx
class.  A completed response with status 201 — a 2xx status — does not
return the parsed JSON body: it raises an error carrying status 201. -/
theorem predict_2xx_cex :
    ((200 : Nat) ≤ 201 ∧ (201 : Nat) < 300) ∧
    (request_prediction cfgEx hostEx "a.jpg" "t1"
        (fun _ => .response 201 "created" .null)).2 =
      .error ⟨"AI service returned error: created", 201⟩ ∧
    (request_prediction cfgEx hostEx "a.jpg" "t1"
        (fun _ => .response 201 "created" .null)).2 ≠ .ok .null :=
  ⟨by decide, rfl, fun h => Except.noConfusion h⟩

/-- C1 (amended): when the outbound POST completes with HTTP status
exactly 200, `_request_prediction` returns the parsed JSON body
unchanged; for any other completed status — non-2xx statuses and 2xx
statuses other than 200 alike — it fails with an error whose status
equals the remote status code and whose message contains the remote
error body. -/
theorem predict_response_classified (cfg : AIConfig) (host : HostInfo)
    (image_path task_id : String) (net : PredictRequest → HttpOutcome)
    (status : Nat) (text : String) (json : JsonValue)
    (h : net (build_predict_request cfg host image_path task_id) =
      .response status text json) :
    (status = 200 →
      (request_prediction cfg host image_path task_id net).2 = .ok json) ∧
    (status ≠ 200 →
      (request_prediction cfg host image_path task_id net).2 =
        .error ⟨"AI service returned error: " ++ text, status⟩ ∧
      ∃ pre, "AI service returned error: " ++ text = pre ++ text) := by
  constructor
  · intro hs
    simp [request_prediction, h, hs]
  · intro hs
    exact ⟨by simp [request_prediction, h, hs], ⟨"AI service returned error: ", rfl⟩⟩

/-- Witness for the amended C1 theorem: a remote 422 with body
"bad image" yields an error with status 422 whose message embeds the
body. -/
theorem predict_response_classified_witness :
    (request_prediction cfgEx hostEx "a.jpg" "t1"
        (fun _ => .response 422 "bad image" .null)).2 =
      .error ⟨"AI service returned error: " ++ "bad image", 422⟩ ∧
    ∃ pre, "AI service returned error: " ++ "bad image" = pre ++ "bad image" :=
  (predict_response_classified cfgEx hostEx "a.jpg" "t1"
    (fun _ => .response 422 "bad image" .null) 422 "bad image" .null rfl).2
    (by decide)

/-- C3: a transport-level timeout of the outbound POST fails the
prediction with status 504 and a message containing "request timeout";
a connection failure fails it with status 503 and a message that
includes the underlying error's text. -/
theorem predict_transport_errors (cfg : AIConfig) (host : HostInfo)
    (image_path task_id : String) (net : PredictRequest → HttpOutcome) :
    (net (build_predict_request cfg host image_path task_id) = .timeout →
      (request_prediction cfg host image_path task_id net).2 =
        .error ⟨"AI service request timeout", 504⟩ ∧
      ∃ pre, "AI service request timeout" = pre ++ "request timeout") ∧
    (∀ etext, net (build_predict_request cfg host image_path task_id) =
        .connError etext →
      ∃ e, (request_prediction cfg host image_path task_id net).2 = .error e ∧
        e.status = 503 ∧ ∃ pre, e.message = pre ++ etext) := by
  constructor
  · intro h
    exact ⟨by simp [request_prediction, h], ⟨"AI service ", by decide⟩⟩
  · intro etext h
    exact ⟨⟨"Failed to connect to AI service: " ++ etext, 503⟩,
      by simp [request_prediction, h], rfl,
      ⟨"Failed to connect to AI service: ", rfl⟩⟩

/-- Witness for the C3 theorem at a concrete timeout and a concrete
connection failure. -/
theorem predict_transport_errors_witness :
    ((request_prediction cfgEx hostEx "a.jpg" "t1" (fun _ => .timeout)).2 =
        .error ⟨"AI service request timeout", 504⟩ ∧
      ∃ pre, "AI service request timeout" = pre ++ "request timeout") ∧
    (∃ e, (request_prediction cfgEx hostEx "a.jpg" "t1"
        (fun _ => .connError "refused")).2 = .error e ∧
      e.status = 503 ∧ ∃ pre, e.message = pre ++ "refused") :=
  ⟨(predict_transport_errors cfgEx hostEx "a.jpg" "t1" (fun _ => .timeout)).1 rfl,
   (predict_transport_errors cfgEx hostEx "a.jpg" "t1"
     (fun _ => .connError "refused")).2 "refused" rfl⟩

/-- Once validation passes, `_handle_predict` always issues exactly the
request the predictor builds from the supplied `image_url` and
`task_id`, whatever the transport outcome. -/
theorem handle_predict_fst (cfg : AIConfig) (host : HostInfo)
    (body : List (String × String)) (net : PredictRequest → HttpOutcome)
    (image_url task_id : String)
    (h1 : lookupField body "image_url" = some image_url)
    (h2 : lookupField body "task_id" = some task_id)
    (h3 : (lookupField body "callback_url").isSome) :
    (handle_predict cfg host body net).1 =
      some (build_predict_request cfg host image_url task_id) := by
  have hfind := find_missing_none body (by simp [h1]) (by simp [h2]) h3
  simp only [handle_predict, hfind, h1, h2, Option.getD_some]
  rcases hres : request_prediction cfg host image_url task_id net with ⟨req, res⟩
  have hreq : req = build_predict_request cfg host image_url task_id := by
    have h := request_prediction_fst cfg host image_url task_id net
    rw [hres] at h
    exact h
  cases res <;> simp [hreq]

/-- C2: when the body holds all of `image_url`, `task_id` and
`callback_url` and the delegated predictor call raises any server error
`e` — the 503/504 transport errors and remote-status errors included —
`_handle_predict` re-raises it as a 500-class error whose message is
the original exception's message (`str(e)`). -/
theorem handle_predict_wraps_errors (cfg : AIConfig) (host : HostInfo)
    (body : List (String × String)) (net : PredictRequest → HttpOutcome)
    (image_url task_id cb : String) (e : ServerError)
    (h1 : lookupField body "image_url" = some image_url)
    (h2 : lookupField body "task_id" = some task_id)
    (h3 : lookupField body "callback_url" = some cb)
    (he : (request_prediction cfg host image_url task_id net).2 = .error e) :
    (handle_predict cfg host body net).2 = .error ⟨errStr e, 500⟩ := by
  have hfind := find_missing_none body (by simp [h1]) (by simp [h2]) (by simp [h3])
  simp only [handle_predict, hfind, h1, h2, Option.getD_some]
  rcases hres : request_prediction cfg host image_url task_id net with ⟨req, res⟩
  rw [hres] at he
  simp only at he
  subst he
  simp

/-- Witness for the C2 theorem: a timed-out predictor call surfaces as
a 500 error carrying the predictor's own "AI service request timeout"
message. -/
theorem handle_predict_wraps_errors_witness :
    (handle_predict cfgEx hostEx
        [("image_url", "http://x/a.jpg"), ("task_id", "t1"),
         ("callback_url", "http://x/cb")]
        (fun _ => .timeout)).2 =
      .error ⟨errStr ⟨"AI service request timeout", 504⟩, 500⟩ :=
  handle_predict_wraps_errors cfgEx hostEx
    [("image_url", "http://x/a.jpg"), ("task_id", "t1"),
     ("callback_url", "http://x/cb")]
    (fun _ => .timeout) "http://x/a.jpg" "t1" "http://x/cb"
    ⟨"AI service request timeout", 504⟩ rfl rfl rfl rfl

/-- C5: a body lacking at least one of `image_url`, `task_id`,
`callback_url` makes `_handle_predict` raise a 400 error naming the
first missing field, the fields being scanned in the order `image_url`,
`task_id`, `callback_url`; no outbound request is issued. -/
theorem handle_predict_missing_field (cfg : AIConfig) (host : HostInfo)
    (body : List (String × String)) (net : PredictRequest → HttpOutcome)
    (h : (lookupField body "image_url").isNone ∨
      (lookupField body "task_id").isNone ∨
      (lookupField body "callback_url").isNone) :
    ∃ f, handle_predict cfg host body net =
        (none, .error ⟨"Missing required field: " ++ f, 400⟩) ∧
      ((lookupField body "image_url").isNone → f = "image_url") ∧
      ((lookupField body "image_url").isSome →
        (lookupField body "task_id").isNone → f = "task_id") ∧
      ((lookupField body "image_url").isSome →
        (lookupField body "task_id").isSome →
        (lookupField body "callback_url").isNone → f = "callback_url") := by
  cases h1 : lookupField body "image_url" with
  | none =>
    refine ⟨"image_url", ?_, fun _ => rfl, ?_, ?_⟩
    · simp [handle_predict, required_fields, List.find?, h1]
    · intro hs _
      simp at hs
    · intro hs _ _
      simp at hs
  | some v1 =>
    cases h2 : lookupField body "task_id" with
    | none =>
      refine ⟨"task_id", ?_, ?_, fun _ _ => rfl, ?_⟩
      · simp [handle_predict, required_fields, List.find?, h1, h2]
      · intro hn
        simp at hn
      · intro _ hs _
        simp at hs
    | some v2 =>
      cases h3 : lookupField body "callback_url" with
      | none =>
        refine ⟨"callback_url", ?_, ?_, ?_, fun _ _ _ => rfl⟩
        · simp [handle_predict, required_fields, List.find?, h1, h2, h3]
        · intro hn
          simp at hn
        · intro _ hn
          simp at hn
      | some v3 =>
        rcases h with h | h | h
        · rw [h1] at h
          simp at h
        · rw [h2] at h
          simp at h
        · rw [h3] at h
          simp at h

/-- Witness for the C5 theorem at the spec's scenario: a body holding
only `task_id` is rejected naming `image_url` first. -/
theorem handle_predict_missing_field_witness :
    ∃ f, handle_predict cfgEx hostEx [("task_id", "t1")] (fun _ => .timeout) =
        (none, .error ⟨"Missing required field: " ++ f, 400⟩) ∧
      ((lookupField [("task_id", "t1")] "image_url").isNone → f = "image_url") ∧
      ((lookupField [("task_id", "t1")] "image_url").isSome →
        (lookupField [("task_id", "t1")] "task_id").isNone → f = "task_id") ∧
      ((lookupField [("task_id", "t1")] "image_url").isSome →
        (lookupField [("task_id", "t1")] "task_id").isSome →
        (lookupField [("task_id", "t1")] "callback_url").isNone →
        f = "callback_url") :=
  handle_predict_missing_field cfgEx hostEx [("task_id", "t1")]
    (fun _ => .timeout) (Or.inl (by decide))

/-- C9: the caller-supplied `callback_url` never influences the
outbound prediction request.  Two validated bodies that agree on
`image_url` and `task_id` — their `callback_url` values arbitrary —
produce the identical outbound POST, whose callback URL is always
derived from the server's host info. -/
theorem handle_predict_callback_ignored (cfg : AIConfig) (host : HostInfo)
    (body1 body2 : List (String × String)) (net : PredictRequest → HttpOutcome)
    (image_url task_id cb1 cb2 : String)
    (h1i : lookupField body1 "image_url" = some image_url)
    (h1t : lookupField body1 "task_id" = some task_id)
    (h1c : lookupField body1 "callback_url" = some cb1)
    (h2i : lookupField body2 "image_url" = some image_url)
    (h2t : lookupField body2 "task_id" = some task_id)
    (h2c : lookupField body2 "callback_url" = some cb2) :
    ∃ req : PredictRequest,
      (handle_predict cfg host body1 net).1 = some req ∧
      (handle_predict cfg host body2 net).1 = some req ∧
      req.body.callback_url = "http://" ++ host.address ++ "/api/v1/ai/callback" := by
  refine ⟨build_predict_request cfg host image_url task_id, ?_, ?_, rfl⟩
  · exact handle_predict_fst cfg host body1 net image_url task_id h1i h1t
      (by simp [h1c])
  · exact handle_predict_fst cfg host body2 net image_url task_id h2i h2t
      (by simp [h2c])

/-- Witness for the C9 theorem: two concrete bodies differing only in
`callback_url` issue the same outbound request. -/
theorem handle_predict_callback_ignored_witness :
    ∃ req : PredictRequest,
      (handle_predict cfgEx hostEx
          [("image_url", "http://x/a.jpg"), ("task_id", "t1"),
           ("callback_url", "http://attacker.example/cb")]
          (fun _ => .timeout)).1 = some req ∧
      (handle_predict cfgEx hostEx
          [("image_url", "http://x/a.jpg"), ("task_id", "t1"),
           ("callback_url", "http://honest.example/cb")]
          (fun _ => .timeout)).1 = some req ∧
      req.body.callback_url = "http://" ++ hostEx.address ++ "/api/v1/ai/callback" :=
  handle_predict_callback_ignored cfgEx hostEx
    [("image_url", "http://x/a.jpg"), ("task_id", "t1"),
     ("callback_url", "http://attacker.example/cb")]
    [("image_url", "http://x/a.jpg"), ("task_id", "t1"),
     ("callback_url", "http://honest.example/cb")]
    (fun _ => .timeout) "http://x/a.jpg" "t1"
    "http://attacker.example/cb" "http://honest.example/cb"
    rfl rfl rfl rfl rfl rfl

/-- C10: `_handle_predict` validates key presence only — a body binding
all three required keys to empty strings passes validation and an
outbound prediction request is still issued — whereas
`_handle_image_upload` rejects a present-but-empty `task_id` with a
400 "task_id is required" error. -/
theorem predict_presence_only_validation (cfg : AIConfig) (host : HostInfo)
    (body : List (String × String)) (net : PredictRequest → HttpOutcome)
    (hi : lookupField body "image_url" = some "")
    (ht : lookupField body "task_id" = some "")
    (hc : lookupField body "callback_url" = some "") :
    (handle_predict cfg host body net).1 =
      some (build_predict_request cfg host "" "") ∧
    (∀ (req : UploadRequest) (timestamp : Nat) (write_ok : Bool)
        (io_msg : String) (f : HTTPFile),
      lookupFile req.files "file" = some (some f) → f.filename ≠ "" →
      lookupField req.args "task_id" = some "" →
      handle_image_upload cfg req timestamp write_ok io_msg =
        ([], .error ⟨"task_id is required", 400⟩)) := by
  constructor
  · exact handle_predict_fst cfg host body net "" "" hi ht (by simp [hc])
  · intro req timestamp write_ok io_msg f hf hn htask
    simp [handle_image_upload, hf, hn, get_str, htask]

/-- Witness for the C10 theorem at concrete inputs: an all-empty-values
predict body passes validation while an upload with empty `task_id` is
rejected. -/
theorem predict_presence_only_validation_witness :
    (handle_predict cfgEx hostEx
        [("image_url", ""), ("task_id", ""), ("callback_url", "")]
        (fun _ => .timeout)).1 =
      some (build_predict_request cfgEx hostEx "" "") ∧
    (∀ (req : UploadRequest) (timestamp : Nat) (write_ok : Bool)
        (io_msg : String) (f : HTTPFile),
      lookupFile req.files "file" = some (some f) → f.filename ≠ "" →
      lookupField req.args "task_id" = some "" →
      handle_image_upload cfgEx req timestamp write_ok io_msg =
        ([], .error ⟨"task_id is required", 400⟩)) :=
  predict_presence_only_validation cfgEx hostEx
    [("image_url", ""), ("task_id", ""), ("callback_url", "")]
    (fun _ => .timeout) rfl rfl rfl

/-- C4: an upload request missing the file part, carrying a falsy file
object or an unnamed file, missing `task_id` or binding it to the empty
string, or whose (case-insensitively lowercased) filename carries a
disallowed extension, is rejected by `_handle_image_upload` with a
400-class error decided by the first failing check — file part, then
file/filename, then `task_id`, then extension — and no file is
written. -/
theorem upload_validation_rejects (cfg : AIConfig) (req : UploadRequest)
    (timestamp : Nat) (write_ok : Bool) (io_msg : String)
    (h : lookupFile req.files "file" = none ∨
      lookupFile req.files "file" = some none ∨
      (∃ f, lookupFile req.files "file" = some (some f) ∧ f.filename = "") ∨
      lookupField req.args "task_id" = none ∨
      lookupField req.args "task_id" = some "" ∨
      (∃ f, lookupFile req.files "file" = some (some f) ∧
        allowed_ext (lower f.filename) = false)) :
    ∃ e : ServerError,
      handle_image_upload cfg req timestamp write_ok io_msg = ([], .error e) ∧
      e.status = 400 ∧
      (lookupFile req.files "file" = none → e.message = "No file uploaded") ∧
      (lookupFile req.files "file" = some none → e.message = "Empty file") ∧
      (∀ f, lookupFile req.files "file" = some (some f) → f.filename = "" →
        e.message = "Empty file") ∧
      (∀ f, lookupFile req.files "file" = some (some f) → f.filename ≠ "" →
        lookupField req.args "task_id" = some "" →
        e.message = "task_id is required") ∧
      (∀ f v, lookupFile req.files "file" = some (some f) → f.filename ≠ "" →
        lookupField req.args "task_id" = some v → v ≠ "" →
        allowed_ext (lower f.filename) = false →
        e.message = "Invalid file type. Only jpg/jpeg/png allowed") := by
  cases hf : lookupFile req.files "file" with
  | none =>
    refine ⟨⟨"No file uploaded", 400⟩, by simp [handle_image_upload, hf], rfl,
      fun _ => rfl, ?_, ?_, ?_, ?_⟩
    · intro h'
      simp at h'
    · intro g h'
      simp at h'
    · intro g h'
      simp at h'
    · intro g v h'
      simp at h'
  | some fo =>
    cases fo with
    | none =>
      refine ⟨⟨"Empty file", 400⟩, by simp [handle_image_upload, hf], rfl,
        ?_, fun _ => rfl, ?_, ?_, ?_⟩
      · intro h'
        simp at h'
      · intro g h'
        simp at h'
      · intro g h'
        simp at h'
      · intro g v h'
        simp at h'
    | some f =>
      by_cases hname : f.filename = ""
      · refine ⟨⟨"Empty file", 400⟩,
          by simp [handle_image_upload, hf, hname], rfl, ?_, ?_,
          fun _ _ _ => rfl, ?_, ?_⟩
        · intro h'
          simp at h'
        · intro h'
          simp at h'
        · intro g hg hgn _
          simp at hg
          subst hg
          exact absurd hname hgn
        · intro g v hg hgn _ _ _
          simp at hg
          subst hg
          exact absurd hname hgn
      · cases htask : lookupField req.args "task_id" with
        | none =>
          refine ⟨⟨"Missing request argument: " ++ "task_id", 400⟩,
            by simp [handle_image_upload, hf, hname, get_str, htask], rfl,
            ?_, ?_, ?_, ?_, ?_⟩
          · intro h'
            simp at h'
          · intro h'
            simp at h'
          · intro g hg hgn
            simp at hg
            subst hg
            exact absurd hgn hname
          · intro g hg hgn h'
            simp at h'
          · intro g v hg hgn h'
            simp at h'
        | some v =>
          by_cases hv : v = ""
          · refine ⟨⟨"task_id is required", 400⟩,
              by simp [handle_image_upload, hf, hname, get_str, htask, hv],
              rfl, ?_, ?_, ?_, fun _ _ _ _ => rfl, ?_⟩
            · intro h'
              simp at h'
            · intro h'
              simp at h'
            · intro g hg hgn
              simp at hg
              subst hg
              exact absurd hgn hname
            · intro g v' hg hgn htask' hv' _
              simp at htask'
              rw [hv] at htask'
              exact absurd htask'.symm hv'
          · cases hext : allowed_ext (lower f.filename) with
            | false =>
              refine ⟨⟨"Invalid file type. Only jpg/jpeg/png allowed", 400⟩,
                by simp [handle_image_upload, hf, hname, get_str, htask, hv,
                  hext],
                rfl, ?_, ?_, ?_, ?_, fun _ _ _ _ _ _ _ => rfl⟩
              · intro h'
                simp at h'
              · intro h'
                simp at h'
              · intro g hg hgn
                simp at hg
                subst hg
                exact absurd hgn hname
              · intro g hg hgn htask'
                simp at htask'
                exact absurd htask' hv
            | true =>
              exfalso
              rw [hf, htask] at h
              simp [hname, hv, hext] at h


/-- Witness for the C4 theorem at a concrete upload whose filename
carries the disallowed extension `.gif`. -/
theorem upload_validation_rejects_witness :
    ∃ e : ServerError,
      handle_image_upload cfgEx
          ⟨[("file", some ⟨"a.gif", [1]⟩)], [("task_id", "t1")]⟩ 5 true "" =
        ([], .error e) ∧
      e.status = 400 ∧
      (lookupFile [("file", some (⟨"a.gif", [1]⟩ : HTTPFile))] "file" = none →
        e.message = "No file uploaded") ∧
      (lookupFile [("file", some (⟨"a.gif", [1]⟩ : HTTPFile))] "file" =
          some none →
        e.message = "Empty file") ∧
      (∀ f, lookupFile [("file", some (⟨"a.gif", [1]⟩ : HTTPFile))] "file" =
          some (some f) →
        f.filename = "" → e.message = "Empty file") ∧
      (∀ f, lookupFile [("file", some (⟨"a.gif", [1]⟩ : HTTPFile))] "file" =
          some (some f) →
        f.filename ≠ "" → lookupField [("task_id", "t1")] "task_id" = some "" →
        e.message = "task_id is required") ∧
      (∀ f v, lookupFile [("file", some (⟨"a.gif", [1]⟩ : HTTPFile))] "file" =
          some (some f) →
        f.filename ≠ "" → lookupField [("task_id", "t1")] "task_id" = some v →
        v ≠ "" → allowed_ext (lower f.filename) = false →
        e.message = "Invalid file type. Only jpg/jpeg/png allowed") :=
  upload_validation_rejects cfgEx
    ⟨[("file", some ⟨"a.gif", [1]⟩)], [("task_id", "t1")]⟩ 5 true ""
    (Or.inr (Or.inr (Or.inr (Or.inr (Or.inr
      ⟨⟨"a.gif", [1]⟩, rfl, by decide⟩)))))

/-- C6 counterexample: the saved name's extension comes from the
lowercased filename (`filename = file.filename.lower()` feeds
`os.path.splitext`), not from the uploaded filename as-is.  Uploading
"a.JPG" with task "t1" at second 5 persists "/snaps/t1_5.jpg", not the
claimed `<taskId>_<unixSeconds><originalExt>` = "/snaps/t1_5.JPG". -/
theorem upload_extension_cex :
    (splitext "a.JPG").2 = ".JPG" ∧
    handle_image_upload cfgEx
        ⟨[("file", some ⟨"a.JPG", [7]⟩)], [("task_id", "t1")]⟩ 5 true "" =
      ([("/snaps/t1_5.jpg", [7])], .ok ⟨200, "success", .null⟩) ∧
    ("/snaps/t1_5.jpg" : String) ≠
      path_join cfgEx.snapshot_path
        ("t1" ++ "_" ++ toString 5 ++ (splitext "a.JPG").2) :=
  ⟨rfl, rfl, by decide⟩

/-- C6 (amended): an upload that passes all four validation checks and
whose persistence write succeeds stores exactly one file under
`snapshot_path`, named `<taskId>_<unixSeconds><ext>` where `ext` is the
extension of the lowercased uploaded filename, and returns
`{code: 200, message: "success", data: null}`. -/
theorem upload_success (cfg : AIConfig) (req : UploadRequest)
    (timestamp : Nat) (io_msg : String) (f : HTTPFile) (task_id : String)
    (hf : lookupFile req.files "file" = some (some f))
    (hn : f.filename ≠ "")
    (ht : lookupField req.args "task_id" = some task_id)
    (hne : task_id ≠ "")
    (hext : allowed_ext (lower f.filename) = true) :
    handle_image_upload cfg req timestamp true io_msg =
      ([(path_join cfg.snapshot_path
          (task_id ++ "_" ++ toString timestamp ++
            (splitext (lower f.filename)).2),
        f.body)],
       .ok ⟨200, "success", .null⟩) := by
  simp [handle_image_upload, hf, hn, get_str, ht, hne, hext]

/-- Witness for the amended C6 theorem: uploading "b.png" with task
"t2" at second 9 persists exactly "/snaps/t2_9.png" and reports
success. -/
theorem upload_success_witness :
    handle_image_upload cfgEx
        ⟨[("file", some ⟨"b.png", [2, 3]⟩)], [("task_id", "t2")]⟩ 9 true "" =
      ([("/snaps/t2_9.png", [2, 3])], .ok ⟨200, "success", .null⟩) :=
  upload_success cfgEx
    ⟨[("file", some ⟨"b.png", [2, 3]⟩)], [("task_id", "t2")]⟩ 9 ""
    ⟨"b.png", [2, 3]⟩ "t2" rfl (by decide) rfl (by decide) (by decide)

end AiDetection
